import Mathlib

/-!
Verification development for the jewel-tree interactive application
(`src/App.tsx`, `src/types.ts`).

The embedding below translates the gesture-driven state machine and the
per-frame integration steps of `App.tsx` into executable Lean definitions:

* numeric values in the source are JavaScript doubles; they are embedded as
  rationals (`ℚ`), so every decimal constant of the source appears as an
  exact fraction (`0.95 = 19/20`, `0.06 = 3/50`, `0.2 = 1/5`, `0.002 = 1/500`,
  `0.05` pinch threshold, `0.1 = 1/10`, `0.5 = 1/2`, `0.02 = 1/50`);
* `Math.hypot` comparisons are embedded through squared distances: for
  nonnegative reals, `hypot a b < c ↔ a^2 + b^2 < c^2`, so every comparison
  of hypot values in the source is an equivalent comparison of `dist2`
  values here (`0.05^2 = 1/400`);
* JavaScript array indexing that can hit `undefined` (and then throw on a
  field access) is embedded with `List.get?`; a step that would throw a
  `TypeError` in the source is a step that returns `none` here;
* IEEE-754 NaN propagation, where a claim is about it, is embedded by
  `JNum := Option ℚ` with `none` playing NaN and arithmetic propagating it.

Randomized quantities produced by `Math.random()` and values of the external
math library (`Math.sin`/`Math.cos` of running time) enter the model as
explicit parameters of the corresponding step functions.
-/

namespace JewelApp

/-- The `AppState` enum of `src/types.ts`: TREE / SCATTER / ZOOM. -/
inductive AppState where
  | tree
  | scatter
  | zoom
deriving DecidableEq, Repr

/-- A 2D point (used for hand positions, rotation, rotational velocity). -/
structure Pt where
  x : ℚ
  y : ℚ
deriving DecidableEq, Repr

/-- A 3D vector, as used by `THREE.Vector3` valued fields of the logic data. -/
structure Vec3 where
  x : ℚ
  y : ℚ
  z : ℚ
deriving DecidableEq, Repr

/-- One normalized MediaPipe hand landmark (only `x`/`y` are read by
`App.tsx`). -/
structure Landmark where
  x : ℚ
  y : ℚ
deriving DecidableEq, Repr

/-- One decorative instance record, from `createInstancedMesh` in `App.tsx`
(`item = { treePos, scatterPos, currentPos, scale, velocity, rotSpeed }`). -/
structure Inst where
  treePos : Vec3
  scatterPos : Vec3
  currentPos : Vec3
  scale : ℚ
  velocity : Vec3
  rotSpeed : Pt
deriving DecidableEq, Repr

/-- One dust mote record, from `createDust` in `App.tsx`. -/
structure DustItem where
  currentPos : Vec3
  baseY : ℚ
  speed : ℚ
deriving DecidableEq, Repr

/-- The focal emblem ("star") of `createJewels`: its fixed tree/scatter
targets and its live position. -/
structure StarData where
  treePos : Vec3
  scatterPos : Vec3
  currentPos : Vec3
deriving DecidableEq, Repr

/-- One uploaded photo panel, from `addPhoto` in `App.tsx`
(`mesh.userData = { treePos, scatterPos, baseRot }`). -/
structure PhotoData where
  treePos : Vec3
  scatterPos : Vec3
  baseRotY : ℚ
deriving DecidableEq, Repr

/-- The mutable application state of `App.tsx`, collecting the React state
and the long-lived refs that the gesture handler, the photo-upload handler
and the animation loop read and write: `stateRef`/`currentState`,
`photoMeshesRef`, `photoCount`, `zoomTargetIndexRef`, `handPosRef`,
`lastHandPosRef`, `rotVelocityRef`, `mainGroup.rotation`,
`isHandPresentRef`, and the object registry `logicDataRef`. -/
structure Sim where
  mode : AppState
  photos : List PhotoData
  photoCount : Nat
  cursor : Int
  handPos : Pt
  lastHandPos : Pt
  rotVel : Pt
  rotation : Pt
  handPresent : Bool
  gold : List Inst
  silver : List Inst
  gem : List Inst
  emerald : List Inst
  dust : List DustItem
  star : StarData
deriving DecidableEq, Repr

/-- Squared planar distance between two landmarks; `Math.hypot (a.x-b.x)
(a.y-b.y) < c` in the source is `ldist2 a b < c^2` here. -/
def ldist2 (a b : Landmark) : ℚ :=
  (a.x - b.x) ^ 2 + (a.y - b.y) ^ 2

/-- `isFingerFolded(landmarks, tipIdx)` from `App.tsx`: the tip is closer to
the wrist (landmark 0) than the mid joint (`tipIdx - 2`) is.  Accesses that
would read `undefined` in JavaScript (and then throw on `.x`) return `none`. -/
def isFingerFolded (ls : List Landmark) (tipIdx : Nat) : Option Bool := do
  let root ← ls.get? 0
  let tip ← ls.get? tipIdx
  let mid ← ls.get? (tipIdx - 2)
  return decide (ldist2 tip root < ldist2 mid root)

/-- The `isFist` computation of `handleGesture`: all four non-thumb fingers
folded, with JavaScript short-circuit `&&` evaluation order (a later
`isFingerFolded` call is not evaluated once an earlier one is `false`). -/
def isFistCheck (ls : List Landmark) : Option Bool := do
  let f8 ← isFingerFolded ls 8
  if f8 then do
    let f12 ← isFingerFolded ls 12
    if f12 then do
      let f16 ← isFingerFolded ls 16
      if f16 then isFingerFolded ls 20
      else return false
    else return false
  else return false

/-- The `isPinch` computation of `handleGesture`: planar distance between the
index fingertip (8) and the thumb tip (4) below `0.05` (squared: `1/400`). -/
def isPinchCheck (ls : List Landmark) : Option Bool := do
  let l8 ← ls.get? 8
  let l4 ← ls.get? 4
  return decide (ldist2 l8 l4 < 1 / 400)

/-- The read-and-classify prefix of `handleGesture`: landmark 9 (palm
center), then `isFist`, then `pinchDist`, in source evaluation order; `none`
when any landmark access would throw in the source. -/
def classify (ls : List Landmark) : Option (Landmark × Bool × Bool) := do
  let l9 ← ls.get? 9
  let fist ← isFistCheck ls
  let pinch ← isPinchCheck ls
  return (l9, fist, pinch)

/-- `selectClosestPhoto` from `App.tsx`, as a pure function of the photo
count and the current zoom-target index: no photos leaves the cursor alone;
a `-1` cursor becomes `0`; otherwise the cursor advances circularly.
JavaScript `%` is truncating remainder, i.e. `Int.tmod`. -/
def selectClosestPhoto (count : Nat) (cursor : Int) : Int :=
  if count = 0 then cursor
  else if cursor = -1 then 0
  else Int.tmod (cursor + 1) (count : Int)

/-- The state-updating suffix of `handleGesture`, given the already
classified flags: write the palm position, then branch on pinch / fist /
open exactly as in `App.tsx` lines 472–493. -/
def applyGesture (l9 : Landmark) (fist pinch : Bool) (s : Sim) : Sim :=
  let s1 := { s with handPos := ⟨l9.x, l9.y⟩ }
  if pinch then
    if s1.mode = AppState.scatter ∧ 0 < s1.photos.length then
      { s1 with cursor := selectClosestPhoto s1.photos.length s1.cursor,
                mode := AppState.zoom }
    else s1
  else if fist then
    { s1 with mode := AppState.tree }
  else if s1.mode = AppState.tree ∨ s1.mode = AppState.zoom then
    { s1 with mode := AppState.scatter, lastHandPos := s1.handPos }
  else s1

/-- `handleGesture(landmarks)` from `App.tsx`: classification followed by the
state update; `none` models the `TypeError` a malformed landmark list would
raise in the source. -/
def handleGesture (ls : List Landmark) (s : Sim) : Option Sim :=
  (classify ls).map fun c => applyGesture c.1 c.2.1 c.2.2 s

/-- The per-detection-result branch of `predictWebcam` (`App.tsx` lines
440–447): an empty `result.landmarks` clears the presence flag and does
nothing else; otherwise the presence flag is set and the first hand's
landmarks go to `handleGesture`. -/
def processDetection (hands : List (List Landmark)) (s : Sim) : Option Sim :=
  match hands with
  | [] => some { s with handPresent := false }
  | marks :: _ => handleGesture marks { s with handPresent := true }

/-- `addPhoto` from `App.tsx`, restricted to its effect on the modelled
state: append the new panel to `photoMeshesRef`, increment `photoCount`, and
reset the mode to TREE.  The panel's randomized placement data (angle,
radius, height and the scatter draw of `Math.random()`, plus `Math.cos` /
`Math.sin` of the angle) is abstracted into the already-built `PhotoData`
argument. -/
def addPhoto (p : PhotoData) (s : Sim) : Sim :=
  { s with photos := s.photos ++ [p],
           photoCount := s.photoCount + 1,
           mode := AppState.tree }

/-- Block 1 of `animate` (`App.tsx` lines 260–277): momentum accumulation,
group-rotation advance and damping in SCATTER; constant yaw and tilt decay
in TREE; no rotation/momentum change in ZOOM. -/
def animateRotationStep (s : Sim) : Sim :=
  match s.mode with
  | AppState.scatter =>
    let s1 :=
      if s.handPresent then
        let dx := s.handPos.x - s.lastHandPos.x
        let dy := s.handPos.y - s.lastHandPos.y
        { s with rotVel := ⟨s.rotVel.x + dy * (1 / 5), s.rotVel.y + dx * (1 / 5)⟩,
                 lastHandPos := s.handPos }
      else s
    { s1 with
        rotation := ⟨s1.rotation.x + s1.rotVel.x, s1.rotation.y + s1.rotVel.y⟩,
        rotVel := ⟨s1.rotVel.x * (19 / 20), s1.rotVel.y * (19 / 20)⟩ }
  | AppState.tree =>
    { s with rotation := ⟨s.rotation.x * (19 / 20), s.rotation.y + 1 / 500⟩ }
  | AppState.zoom => s

/-- Squared Euclidean distance of two 3D points. -/
def dist2 (a b : Vec3) : ℚ :=
  (a.x - b.x) ^ 2 + (a.y - b.y) ^ 2 + (a.z - b.z) ^ 2

/-- `THREE.Vector3.lerp`: `v += (target - v) * alpha`, componentwise. -/
def lerpV (v target : Vec3) (alpha : ℚ) : Vec3 :=
  ⟨v.x + (target.x - v.x) * alpha,
   v.y + (target.y - v.y) * alpha,
   v.z + (target.z - v.z) * alpha⟩

/-- The per-instance target of `updateMeshGroup`: `treePos` in TREE,
`scatterPos` otherwise (the explicit ZOOM override in the source also
selects `scatterPos`). -/
def instTarget (mode : AppState) (item : Inst) : Vec3 :=
  if mode = AppState.tree then item.treePos else item.scatterPos

/-- The values `updateMeshGroup` writes into one instance matrix on one
frame: interpolated position, time-scaled rotation, and the scale actually
rendered. -/
structure InstRender where
  pos : Vec3
  rotX : ℚ
  rotY : ℚ
  scale : ℚ
deriving DecidableEq, Repr

/-- The loop body of `updateMeshGroup` (`App.tsx` lines 285–302) for one
instance: lerp `currentPos` toward the mode's target at `0.06`, add the
SCATTER bobbing term (`sinTI` stands for `Math.sin(time + i)`), and emit the
dummy transform, whose scale is halved exactly when the mode is ZOOM.
Returns the updated instance record and the rendered transform. -/
def updateMeshItem (mode : AppState) (time sinTI : ℚ) (item : Inst) :
    Inst × InstRender :=
  let target := instTarget mode item
  let p1 := lerpV item.currentPos target (3 / 50)
  let p2 := if mode = AppState.scatter then
      ⟨p1.x, p1.y + sinTI * (1 / 50), p1.z⟩
    else p1
  let s := if mode = AppState.zoom then item.scale * (1 / 2) else item.scale
  ({ item with currentPos := p2 },
   ⟨p2, time * item.rotSpeed.x, time * item.rotSpeed.y, s⟩)

/-- The position-state part of `updateMeshItem`, used to iterate frames. -/
def instPosStep (mode : AppState) (sinTI : ℚ) (item : Inst) : Inst :=
  (updateMeshItem mode 0 sinTI item).1

/-- The mode/time context of one animation frame as seen by
`updateMeshGroup`. -/
structure FrameCtx where
  mode : AppState
  time : ℚ
  sinTI : ℚ
deriving DecidableEq, Repr

/-- Run the per-instance update over a sequence of frames, keeping the
instance state. -/
def runInst (fs : List FrameCtx) (item : Inst) : Inst :=
  fs.foldl (fun it f => (updateMeshItem f.mode f.time f.sinTI it).1) item

/-- A JavaScript double that is either finite (a rational) or NaN (`none`);
arithmetic propagates NaN exactly as IEEE-754 does for these operations. -/
def JNum : Type := Option ℚ

instance : DecidableEq JNum := inferInstanceAs (DecidableEq (Option ℚ))

/-- NaN-propagating addition. -/
def jAdd : JNum → JNum → JNum
  | some a, some b => some (a + b)
  | _, _ => none

/-- NaN-propagating subtraction. -/
def jSub : JNum → JNum → JNum
  | some a, some b => some (a - b)
  | _, _ => none

/-- NaN-propagating multiplication. -/
def jMul : JNum → JNum → JNum
  | some a, some b => some (a * b)
  | _, _ => none

/-- A 3D vector of possibly-NaN doubles. -/
structure JVec where
  x : JNum
  y : JNum
  z : JNum
deriving DecidableEq

/-- `THREE.Vector3.lerp` over possibly-NaN doubles. -/
def jLerpV (v target : JVec) (alpha : ℚ) : JVec :=
  ⟨jAdd v.x (jMul (jSub target.x v.x) (some alpha)),
   jAdd v.y (jMul (jSub target.y v.y) (some alpha)),
   jAdd v.z (jMul (jSub target.z v.z) (some alpha))⟩

/-- The photo position update of `animate` (`App.tsx` line 358):
`mesh.position.lerp(targetPos, 0.1)`, applied unconditionally to whatever
target was computed this frame. -/
def photoPosStep (pos target : JVec) : JVec :=
  jLerpV pos target (1 / 10)

/-- The registry contents produced by `createJewels`/`createDust`; the
randomized instance and dust populations enter as parameters, the star's
placement is the deterministic one from the source
(`treePos = (0, treeHeight/2 + 3, 0) = (0, 38, 0)`,
`scatterPos = (0, 60, 0)`). -/
structure RegistryInit where
  gold : List Inst
  silver : List Inst
  gem : List Inst
  emerald : List Inst
  dust : List DustItem
deriving DecidableEq, Repr

/-- The star as created in `createJewels`. -/
def star0 : StarData :=
  { treePos := ⟨0, 38, 0⟩, scatterPos := ⟨0, 60, 0⟩, currentPos := ⟨0, 38, 0⟩ }

/-- The initial application state: mode TREE, no photos, cursor −1, hand
position refs at `(0.5, 0.5)`, zero momentum, no hand present. -/
def initSim (r : RegistryInit) : Sim :=
  { mode := AppState.tree, photos := [], photoCount := 0, cursor := -1,
    handPos := ⟨1 / 2, 1 / 2⟩, lastHandPos := ⟨1 / 2, 1 / 2⟩,
    rotVel := ⟨0, 0⟩, rotation := ⟨0, 0⟩, handPresent := false,
    gold := r.gold, silver := r.silver, gem := r.gem, emerald := r.emerald,
    dust := r.dust, star := star0 }

/-- One observable step of the system: a detection-loop tick (possibly with
no hand), a photo upload, or an animation-loop rotation tick.  A detection
tick that would throw in the source produces no successor. -/
inductive Step : Sim → Sim → Prop where
  | detect (hands : List (List Landmark)) (s s' : Sim) :
      processDetection hands s = some s' → Step s s'
  | upload (p : PhotoData) (s : Sim) : Step s (addPhoto p s)
  | frame (s : Sim) : Step s (animateRotationStep s)

/-- States reachable from some initial state under the step relation. -/
inductive Reachable : Sim → Prop where
  | init (r : RegistryInit) : Reachable (initSim r)
  | step {s s' : Sim} : Reachable s → Step s s' → Reachable s'

/-- The cursor value after `K` qualifying pinch events on a photo set of
size `M`, starting from the initial cursor `−1`: each qualifying pinch runs
`selectClosestPhoto` exactly once. -/
def cursorIter (M : Nat) : Nat → Int
  | 0 => -1
  | k + 1 => selectClosestPhoto M (cursorIter M k)

/-- An empty registry (concrete fixture). -/
def regE : RegistryInit := ⟨[], [], [], [], []⟩

/-- Concrete 21-point landmark list in an open posture: index finger not
folded (tip `(1/2,0)` farther from the wrist than mid `(1/4,0)`), and index
tip far from thumb tip (no pinch). -/
def openHand : List Landmark :=
  [⟨0, 0⟩, ⟨1, 1⟩, ⟨1, 1⟩, ⟨1, 1⟩, ⟨0, 1/2⟩, ⟨1, 1⟩, ⟨1/4, 0⟩, ⟨1, 1⟩,
   ⟨1/2, 0⟩, ⟨1/2, 1/2⟩, ⟨1, 1⟩, ⟨1, 1⟩, ⟨1, 1⟩, ⟨1, 1⟩, ⟨1, 1⟩, ⟨1, 1⟩,
   ⟨1, 1⟩, ⟨1, 1⟩, ⟨1, 1⟩, ⟨1, 1⟩, ⟨1, 1⟩]

/-- Concrete 21-point landmark list in a pinch posture: index tip and thumb
tip coincide at `(1/2,1/2)` (distance `0 < 0.05`); not a fist (middle finger
not folded). -/
def pinchHand : List Landmark :=
  [⟨0, 0⟩, ⟨1, 1⟩, ⟨1, 1⟩, ⟨1, 1⟩, ⟨1/2, 1/2⟩, ⟨1, 1⟩, ⟨1, 0⟩, ⟨1, 1⟩,
   ⟨1/2, 1/2⟩, ⟨1/2, 1/2⟩, ⟨0, 1⟩, ⟨1, 1⟩, ⟨1, 1⟩, ⟨1, 1⟩, ⟨1, 1⟩, ⟨1, 1⟩,
   ⟨1, 1⟩, ⟨1, 1⟩, ⟨1, 1⟩, ⟨1, 1⟩, ⟨1, 1⟩]

/-- Concrete 21-point landmark list in a fist posture: all four non-thumb
tips (`(1/8,0)`) closer to the wrist than their mid joints (`(1/4,0)`), and
no pinch (thumb tip at `(1,1)`). -/
def fistHand : List Landmark :=
  [⟨0, 0⟩, ⟨1, 1⟩, ⟨1, 1⟩, ⟨1, 1⟩, ⟨1, 1⟩, ⟨1, 1⟩, ⟨1/4, 0⟩, ⟨1, 1⟩,
   ⟨1/8, 0⟩, ⟨1/2, 1/2⟩, ⟨1/4, 0⟩, ⟨1, 1⟩, ⟨1/8, 0⟩, ⟨1, 1⟩, ⟨1/4, 0⟩,
   ⟨1, 1⟩, ⟨1/8, 0⟩, ⟨1, 1⟩, ⟨1/4, 0⟩, ⟨1, 1⟩, ⟨1/8, 0⟩]

/-- Fixture: initial state with rotational momentum `(1,1)` but mode TREE. -/
def simTreeVel : Sim := { initSim regE with rotVel := ⟨1, 1⟩ }

/-- Fixture: SCATTER state with momentum `(1,−2)` and no hand present. -/
def simScatterVel : Sim :=
  { initSim regE with mode := AppState.scatter, rotVel := ⟨1, -2⟩ }

/-- Fixture: SCATTER state with two registered photos and cursor `−1`. -/
def photoA : PhotoData := ⟨⟨10, 0, 0⟩, ⟨20, 20, 20⟩, 0⟩

/-- A second concrete photo panel. -/
def photoB : PhotoData := ⟨⟨0, 10, 0⟩, ⟨-20, 5, 0⟩, 1⟩

/-- Fixture: SCATTER state holding `photoA` and `photoB`, cursor `−1`. -/
def simScatter2 : Sim :=
  { initSim regE with mode := AppState.scatter, photos := [photoA, photoB] }

/-- The invariant carried through every reachable state: the cursor is
either the initial `−1` or a valid photo index, and in ZOOM mode it is
always a valid photo index. -/
def CursorInv (s : Sim) : Prop :=
  (s.cursor = -1 ∨ (0 ≤ s.cursor ∧ s.cursor < (s.photos.length : Int)))
  ∧ (s.mode = AppState.zoom → 0 ≤ s.cursor ∧ s.cursor < (s.photos.length : Int))

/-- The state produced by a qualifying pinch on `simScatter2`. -/
def simScatter2Zoom : Sim :=
  { simScatter2 with handPos := ⟨1/2, 1/2⟩, cursor := 0, mode := AppState.zoom }

/-- Fixture: ZOOM state with empty photo registry. -/
def simZoomFix : Sim := { initSim regE with mode := AppState.zoom }

/-- The state produced by a fist gesture on `simZoomFix`. -/
def simZoomFixTree : Sim :=
  { simZoomFix with handPos := ⟨1/2, 1/2⟩, mode := AppState.tree }

/-- Fixture: the state after uploading `photoA` into the initial state. -/
def simUpload1 : Sim := addPhoto photoA (initSim regE)

/-- Fixture: the state after an open-hand detection on `simUpload1`. -/
def simOpen1 : Sim :=
  applyGesture ⟨1/2, 1/2⟩ false false { simUpload1 with handPresent := true }

/-- Fixture: the state after a pinch detection on `simOpen1`. -/
def simPinch1 : Sim :=
  applyGesture ⟨1/2, 1/2⟩ false true { simOpen1 with handPresent := true }

/-- Fixture: a decorative instance resting exactly on its TREE target (the
state every instance is created in: `currentPos = treePos.clone()`). -/
def itemOnTarget : Inst :=
  { treePos := ⟨1, 2, 3⟩, scatterPos := ⟨4, 5, 6⟩, currentPos := ⟨1, 2, 3⟩,
    scale := 1, velocity := ⟨0, 0, 0⟩, rotSpeed := ⟨0, 0⟩ }

/-- Fixture: a decorative instance away from its TREE target. -/
def itemOff : Inst :=
  { treePos := ⟨1, 2, 3⟩, scatterPos := ⟨4, 5, 6⟩, currentPos := ⟨0, 0, 0⟩,
    scale := 3, velocity := ⟨0, 0, 0⟩, rotSpeed := ⟨0, 0⟩ }

/-! ### Helper lemmas -/

/-- One SCATTER animation frame with no effective hand displacement damps
both momentum components by `0.95` and preserves the scatter/stillness
situation. -/
theorem animateRotationStep_scatter_still (s : Sim)
    (hm : s.mode = AppState.scatter)
    (hz : s.handPresent = false ∨ s.handPos = s.lastHandPos) :
    (animateRotationStep s).mode = AppState.scatter
    ∧ ((animateRotationStep s).handPresent = false
        ∨ (animateRotationStep s).handPos = (animateRotationStep s).lastHandPos)
    ∧ (animateRotationStep s).rotVel.x = (19/20) * s.rotVel.x
    ∧ (animateRotationStep s).rotVel.y = (19/20) * s.rotVel.y := by
  obtain ⟨mo, ph, pc, cu, hp, lhp, rv, rot, pres, g, si, ge, em, du, st⟩ := s
  simp only at hm
  subst hm
  rcases hz with hz | hz
  · simp only at hz
    subst hz
    refine ⟨rfl, Or.inl rfl, ?_, ?_⟩ <;> simp [animateRotationStep] <;> ring
  · simp only at hz
    subst hz
    cases pres <;>
      refine ⟨rfl, ?_, ?_, ?_⟩ <;>
        simp [animateRotationStep] <;> ring

/-- Iterated SCATTER frames with no effective hand displacement: exact
geometric decay of both momentum components. -/
theorem animateRotationStep_scatter_iter (s : Sim)
    (hm : s.mode = AppState.scatter)
    (hz : s.handPresent = false ∨ s.handPos = s.lastHandPos) (n : ℕ) :
    (animateRotationStep^[n] s).mode = AppState.scatter
    ∧ ((animateRotationStep^[n] s).handPresent = false
        ∨ (animateRotationStep^[n] s).handPos = (animateRotationStep^[n] s).lastHandPos)
    ∧ (animateRotationStep^[n] s).rotVel.x = (19/20) ^ n * s.rotVel.x
    ∧ (animateRotationStep^[n] s).rotVel.y = (19/20) ^ n * s.rotVel.y := by
  induction n with
  | zero => simpa using ⟨hm, hz⟩
  | succ n ih =>
    obtain ⟨h1, h2, h3, h4⟩ := ih
    obtain ⟨g1, g2, g3, g4⟩ := animateRotationStep_scatter_still _ h1 h2
    rw [Function.iterate_succ_apply']
    exact ⟨g1, g2, by rw [g3, h3, pow_succ]; ring, by rw [g4, h4, pow_succ]; ring⟩

/-! ### C1 -/

/-- C1, counterexample: on a TREE-mode frame the rotation-momentum vector is
not multiplied by the damping factor 0.95 — it is left unchanged.  With
momentum `(1,1)`, the frame produced by `animate` keeps `(1,1)`, whereas the
claim requires `(0.95, 0.95)`. -/
theorem rot_damping_tree_cex :
    (animateRotationStep simTreeVel).rotVel = simTreeVel.rotVel
    ∧ ¬ (animateRotationStep simTreeVel).rotVel
        = ⟨(19/20) * simTreeVel.rotVel.x, (19/20) * simTreeVel.rotVel.y⟩ := by
  constructor <;>
    norm_num [animateRotationStep, simTreeVel, initSim, Pt.mk.injEq]

/-- C1, amended: the 0.95 damping of both angular-velocity components is
applied on every frame whose Mode is SCATTER, regardless of hand presence
(in TREE and ZOOM frames the momentum vector is left unchanged); under zero
hand displacement for `n` consecutive SCATTER frames each component equals
`0.95^n` times its initial value, hence decays monotonically toward zero in
absolute value and never changes sign. -/
theorem rot_damping_scatter_only (s : Sim)
    (hm : s.mode = AppState.scatter)
    (hz : s.handPresent = false ∨ s.handPos = s.lastHandPos) (n : ℕ) :
    ((animateRotationStep^[n] s).rotVel.x = (19/20) ^ n * s.rotVel.x
      ∧ (animateRotationStep^[n] s).rotVel.y = (19/20) ^ n * s.rotVel.y)
    ∧ (|(animateRotationStep^[n+1] s).rotVel.x| ≤ |(animateRotationStep^[n] s).rotVel.x|
      ∧ |(animateRotationStep^[n+1] s).rotVel.y| ≤ |(animateRotationStep^[n] s).rotVel.y|)
    ∧ (0 ≤ (animateRotationStep^[n] s).rotVel.x * s.rotVel.x
      ∧ 0 ≤ (animateRotationStep^[n] s).rotVel.y * s.rotVel.y) := by
  obtain ⟨-, -, h3, h4⟩ := animateRotationStep_scatter_iter s hm hz n
  obtain ⟨-, -, h3', h4'⟩ := animateRotationStep_scatter_iter s hm hz (n + 1)
  have hnn : (0:ℚ) ≤ (19/20) ^ n := pow_nonneg (by norm_num) n
  have h1920 : |((19:ℚ)/20)| = 19/20 := abs_of_pos (by norm_num)
  have hple : |((19:ℚ)/20)| ^ (n+1) ≤ |((19:ℚ)/20)| ^ n := by
    rw [h1920]
    exact pow_le_pow_of_le_one (by norm_num) (by norm_num) (Nat.le_succ n)
  refine ⟨⟨h3, h4⟩, ⟨?_, ?_⟩, ⟨?_, ?_⟩⟩
  · rw [h3, h3', abs_mul, abs_mul, abs_pow, abs_pow]
    exact mul_le_mul_of_nonneg_right hple (abs_nonneg _)
  · rw [h4, h4', abs_mul, abs_mul, abs_pow, abs_pow]
    exact mul_le_mul_of_nonneg_right hple (abs_nonneg _)
  · rw [h3, mul_assoc]
    exact mul_nonneg hnn (mul_self_nonneg _)
  · rw [h4, mul_assoc]
    exact mul_nonneg hnn (mul_self_nonneg _)

/-- C1, witness: the amended statement evaluated on a concrete SCATTER state
with momentum `(1, −2)`, no hand present, for three frames. -/
theorem rot_damping_scatter_only_witness :
    simScatterVel.mode = AppState.scatter
    ∧ simScatterVel.handPresent = false
    ∧ (animateRotationStep^[3] simScatterVel).rotVel.x
        = (19/20) ^ 3 * simScatterVel.rotVel.x
    ∧ (animateRotationStep^[3] simScatterVel).rotVel.y
        = (19/20) ^ 3 * simScatterVel.rotVel.y := by
  have h := (rot_damping_scatter_only simScatterVel rfl (Or.inl rfl) 3).1
  exact ⟨rfl, rfl, h.1, h.2⟩

/-! ### C2 -/

/-- C2, counterexample: with `M = 2` photos, the first qualifying pinch
(`K = 1`) sets the cursor to `0`, whereas the claim's formula `K mod M`
gives `1`. -/
theorem cursor_mod_formula_cex :
    cursorIter 2 1 = 0 ∧ (1 : Int) % 2 ≠ 0 := by
  constructor
  · decide
  · decide

/-- C2, amended: starting from SelectionCursor = −1, after `K ≥ 1`
consecutive qualifying pinch events against a photo set of fixed size
`M ≥ 1`, the SelectionCursor equals `(K − 1) mod M` — in particular the
first pinch selects index 0. -/
theorem cursor_after_k_pinches (M K : Nat) (hM : 0 < M) (hK : 1 ≤ K) :
    cursorIter M K = ((K : Int) - 1) % (M : Int) := by
  induction K with
  | zero => exact absurd hK (by norm_num)
  | succ K ih =>
    rcases Nat.eq_zero_or_pos K with h0 | hKpos
    · subst h0
      have hM' : M ≠ 0 := hM.ne'
      simp [cursorIter, selectClosestPhoto, hM']
    · have ih' := ih hKpos
      have hM0 : (M : Int) ≠ 0 := by exact_mod_cast hM.ne'
      have hnn : 0 ≤ ((K : Int) - 1) % (M : Int) := Int.emod_nonneg _ hM0
      have hMnn : (0:Int) ≤ (M : Int) := by positivity
      rw [show cursorIter M (K + 1) = selectClosestPhoto M (cursorIter M K) from rfl,
        ih', selectClosestPhoto, if_neg (by omega : ¬ M = 0),
        if_neg (by omega : ¬ ((K : Int) - 1) % (M : Int) = -1),
        Int.tmod_eq_emod (by omega) hMnn, Int.emod_add_emod]
      congr 1
      push_cast
      ring

/-- C2, witness: five qualifying pinches over three photos land the cursor
on `(5 − 1) mod 3 = 1`. -/
theorem cursor_after_k_pinches_witness :
    0 < 3 ∧ 1 ≤ 5 ∧ cursorIter 3 5 = ((5 : Int) - 1) % (3 : Int) :=
  ⟨by norm_num, by norm_num, cursor_after_k_pinches 3 5 (by norm_num) (by norm_num)⟩

/-! ### C3 -/

/-- The pinch-true branch of `applyGesture`, analysed for every starting
mode and photo count. -/
theorem applyGesture_pinch (l9 : Landmark) (fist : Bool) (s : Sim) :
    ((applyGesture l9 fist true s).mode ≠ s.mode
        ↔ (s.mode = AppState.scatter ∧ 0 < s.photos.length))
    ∧ (s.mode = AppState.scatter ∧ 0 < s.photos.length →
        (applyGesture l9 fist true s).mode = AppState.zoom
        ∧ (applyGesture l9 fist true s).cursor
            = selectClosestPhoto s.photos.length s.cursor)
    ∧ (s.mode = AppState.tree → (applyGesture l9 fist true s).mode = AppState.tree)
    ∧ (s.mode = AppState.scatter ∧ s.photos.length = 0 →
        (applyGesture l9 fist true s).mode = AppState.scatter) := by
  by_cases hc : s.mode = AppState.scatter ∧ 0 < s.photos.length
  · have hmode : (applyGesture l9 fist true s).mode = AppState.zoom := by
      simp [applyGesture, hc]
    have hcur : (applyGesture l9 fist true s).cursor
        = selectClosestPhoto s.photos.length s.cursor := by
      simp [applyGesture, hc]
    refine ⟨?_, fun _ => ⟨hmode, hcur⟩, ?_, ?_⟩
    · rw [hmode, hc.1]
      simpa using hc.2
    · intro ht
      rw [ht] at hc
      exact absurd hc.1 (by simp)
    · intro ⟨_, h0⟩
      omega
  · have hmode : (applyGesture l9 fist true s).mode = s.mode := by
      simp [applyGesture, hc]
    exact ⟨⟨fun hne => absurd hmode hne, fun hcond => absurd hcond hc⟩,
      fun h => absurd h hc, fun h => hmode.trans h, fun h => hmode.trans h.1⟩

/-- Decompose a successful `handleGesture` run into its classified flags and
the `applyGesture` application. -/
theorem handleGesture_eq_some {ls : List Landmark} {s s' : Sim}
    (h : handleGesture ls s = some s') :
    ∃ l9 fist pinch, ls.get? 9 = some l9 ∧ isFistCheck ls = some fist
      ∧ isPinchCheck ls = some pinch ∧ s' = applyGesture l9 fist pinch s := by
  rw [handleGesture] at h
  rcases hc : classify ls with _ | ⟨l9, fist, pinch⟩
  · rw [hc] at h
    simp at h
  · rw [hc] at h
    simp only [Option.map_some', Option.some.injEq] at h
    have hc' := hc
    rw [classify] at hc'
    simp only [Option.bind_eq_bind, Option.bind_eq_some, Option.pure_def,
      Option.some.injEq, Prod.mk.injEq] at hc'
    obtain ⟨a, ha, b, hb, c, hcp, h1, h2, h3⟩ := hc'
    refine ⟨l9, fist, pinch, ?_, ?_, ?_, h.symm⟩
    · rw [← h1]; exact ha
    · rw [← h2]; exact hb
    · rw [← h3]; exact hcp

/-- C3: a frame classified as PINCH transitions the Mode if and only if the
current Mode is SCATTER and at least one photo exists, in which case the new
Mode is ZOOM and the cursor advances via `selectClosestPhoto`; PINCH in TREE
leaves TREE, and PINCH in SCATTER with zero photos leaves SCATTER. -/
theorem pinch_transition_iff (ls : List Landmark) (s s' : Sim)
    (h : handleGesture ls s = some s')
    (hp : isPinchCheck ls = some true) :
    (s'.mode ≠ s.mode ↔ (s.mode = AppState.scatter ∧ 0 < s.photos.length))
    ∧ (s.mode = AppState.scatter ∧ 0 < s.photos.length →
        s'.mode = AppState.zoom
        ∧ s'.cursor = selectClosestPhoto s.photos.length s.cursor)
    ∧ (s.mode = AppState.tree → s'.mode = AppState.tree)
    ∧ (s.mode = AppState.scatter ∧ s.photos.length = 0 →
        s'.mode = AppState.scatter) := by
  obtain ⟨l9, fist, pinch, -, -, hpc, hs'⟩ := handleGesture_eq_some h
  rw [hpc] at hp
  obtain rfl : pinch = true := Option.some.inj hp
  rw [hs']
  exact applyGesture_pinch l9 fist s

/-- C3, witness: the concrete pinch posture applied to the SCATTER state
with two photos — the transition happens and goes to ZOOM with cursor 0. -/
theorem pinch_transition_iff_witness :
    handleGesture pinchHand simScatter2 = some simScatter2Zoom
    ∧ isPinchCheck pinchHand = some true
    ∧ (simScatter2Zoom.mode ≠ simScatter2.mode
        ↔ (simScatter2.mode = AppState.scatter ∧ 0 < simScatter2.photos.length)) := by
  have hEq : handleGesture pinchHand simScatter2 = some simScatter2Zoom := by
    norm_num [handleGesture, classify, isPinchCheck, isFistCheck, isFingerFolded,
      pinchHand, ldist2, applyGesture, selectClosestPhoto, simScatter2,
      simScatter2Zoom, initSim, photoA, photoB, star0]
  have hP : isPinchCheck pinchHand = some true := by
    norm_num [isPinchCheck, pinchHand, ldist2]
  exact ⟨hEq, hP, (pinch_transition_iff pinchHand simScatter2 simScatter2Zoom hEq hP).1⟩

/-! ### C5 -/

/-- C5: a frame classified as FIST (all four non-thumb fingers folded, pinch
not holding) forces the Mode to TREE from every current Mode. -/
theorem fist_forces_tree (ls : List Landmark) (s s' : Sim)
    (h : handleGesture ls s = some s')
    (hf : isFistCheck ls = some true)
    (hp : isPinchCheck ls = some false) :
    s'.mode = AppState.tree := by
  obtain ⟨l9, fist, pinch, -, hfc, hpc, hs'⟩ := handleGesture_eq_some h
  rw [hfc] at hf
  rw [hpc] at hp
  obtain rfl : fist = true := Option.some.inj hf
  obtain rfl : pinch = false := Option.some.inj hp
  rw [hs']
  simp [applyGesture]

/-- C5, witness: the concrete fist posture applied to a ZOOM state lands in
TREE. -/
theorem fist_forces_tree_witness :
    handleGesture fistHand simZoomFix = some simZoomFixTree
    ∧ simZoomFixTree.mode = AppState.tree := by
  have hEq : handleGesture fistHand simZoomFix = some simZoomFixTree := by
    norm_num [handleGesture, classify, isPinchCheck, isFistCheck, isFingerFolded,
      fistHand, ldist2, applyGesture, simZoomFix, simZoomFixTree, initSim, star0]
  have hF : isFistCheck fistHand = some true := by
    norm_num [isFistCheck, isFingerFolded, fistHand, ldist2]
  have hP : isPinchCheck fistHand = some false := by
    norm_num [isPinchCheck, fistHand, ldist2]
  exact ⟨hEq, fist_forces_tree fistHand simZoomFix simZoomFixTree hEq hF hP⟩

/-! ### C4 -/

/-- One `lerp` at blend factor `0.06` scales the squared distance to the
target by `0.94^2 = 2209/2500`. -/
theorem lerp_dist2_scale (p tgt : Vec3) :
    dist2 (lerpV p tgt (3/50)) tgt = (2209/2500) * dist2 p tgt := by
  simp only [dist2, lerpV]
  ring

/-- In the non-SCATTER modes the position part of `updateMeshGroup` is the
pure `lerp` (no bobbing term). -/
theorem updateMeshItem_pos_nonscatter (mode : AppState) (t sv : ℚ) (item : Inst)
    (hm : mode ≠ AppState.scatter) :
    (updateMeshItem mode t sv item).1
      = { item with currentPos := lerpV item.currentPos (instTarget mode item) (3/50) } := by
  simp [updateMeshItem, hm]

/-- Iterating the non-SCATTER position step keeps the fixed targets and
scales the squared distance geometrically. -/
theorem instPosStep_iter_dist2 (mode : AppState) (sv : ℚ)
    (hm : mode ≠ AppState.scatter) (item : Inst) (n : ℕ) :
    dist2 (((instPosStep mode sv)^[n] item).currentPos) (instTarget mode item)
      = (2209/2500) ^ n * dist2 item.currentPos (instTarget mode item) := by
  induction n with
  | zero => simp
  | succ n ih =>
    have hfix : instTarget mode ((instPosStep mode sv)^[n] item) = instTarget mode item := by
      have h : ∀ m, ((instPosStep mode sv)^[m] item).treePos = item.treePos
          ∧ ((instPosStep mode sv)^[m] item).scatterPos = item.scatterPos := by
        intro m
        induction m with
        | zero => exact ⟨rfl, rfl⟩
        | succ m ihm =>
          rw [Function.iterate_succ_apply']
          exact ⟨by rw [instPosStep, updateMeshItem]; exact ihm.1,
            by rw [instPosStep, updateMeshItem]; exact ihm.2⟩
      unfold instTarget
      rcases h n with ⟨h1, h2⟩
      rw [h1, h2]
    rw [Function.iterate_succ_apply', instPosStep,
      updateMeshItem_pos_nonscatter mode 0 sv _ hm]
    simp only
    rw [hfix, lerp_dist2_scale, ih, pow_succ]
    ring

/-- `0.94^300 < 10^{-6}`: the squared-distance bound behind "within 150
steps the distance falls below `1e-3` of the initial distance". -/
theorem pow150_bound : ((2209:ℚ)/2500) ^ 150 < 1/1000000 := by
  rw [div_pow, div_lt_div_iff₀ (by positivity) (by norm_num)]
  norm_num

/-- C4, counterexample: an instance created at its TREE target (the source
initializes `currentPos = treePos.clone()`) has distance 0 to its stationary
target, and the integration step leaves it at distance 0 — the distance is
not strictly decreased on that step, contradicting the claim's "each
integration step strictly decreases the Euclidean distance". -/
theorem lerp_strict_decrease_cex :
    ¬ dist2 ((updateMeshItem AppState.tree 0 0 itemOnTarget).1.currentPos)
        (instTarget AppState.tree itemOnTarget)
      < dist2 itemOnTarget.currentPos (instTarget AppState.tree itemOnTarget) := by
  norm_num [updateMeshItem, instTarget, lerpV, dist2, itemOnTarget]

/-- C4, amended: in the TREE and ZOOM modes (where the per-frame position
update is the pure exponential smoothing `currentPos += (target −
currentPos) * 0.06`; SCATTER adds a vertical bobbing term) and for a
stationary target, each step scales the residual componentwise by exactly
`0.94` — so the position never overshoots — and scales the squared distance
by `0.94^2`; whenever the current distance is nonzero the distance strictly
decreases, and from any nonzero initial distance, 150 steps bring the
distance below `1e-3` of its initial value (squared: below `10^{-6}`). -/
theorem lerp_convergence (mode : AppState) (t sv : ℚ) (item : Inst)
    (hm : mode ≠ AppState.scatter) :
    ((instTarget mode item).x - ((updateMeshItem mode t sv item).1.currentPos).x
        = (47/50) * ((instTarget mode item).x - item.currentPos.x)
      ∧ (instTarget mode item).y - ((updateMeshItem mode t sv item).1.currentPos).y
        = (47/50) * ((instTarget mode item).y - item.currentPos.y)
      ∧ (instTarget mode item).z - ((updateMeshItem mode t sv item).1.currentPos).z
        = (47/50) * ((instTarget mode item).z - item.currentPos.z))
    ∧ dist2 ((updateMeshItem mode t sv item).1.currentPos) (instTarget mode item)
        = (2209/2500) * dist2 item.currentPos (instTarget mode item)
    ∧ (0 < dist2 item.currentPos (instTarget mode item) →
        dist2 ((updateMeshItem mode t sv item).1.currentPos) (instTarget mode item)
          < dist2 item.currentPos (instTarget mode item))
    ∧ (0 < dist2 item.currentPos (instTarget mode item) →
        dist2 (((instPosStep mode sv)^[150] item).currentPos) (instTarget mode item)
          < (1/1000000) * dist2 item.currentPos (instTarget mode item)) := by
  have hpos : (updateMeshItem mode t sv item).1
      = { item with currentPos := lerpV item.currentPos (instTarget mode item) (3/50) } :=
    updateMeshItem_pos_nonscatter mode t sv item hm
  refine ⟨⟨?_, ?_, ?_⟩, ?_, ?_, ?_⟩
  · rw [hpos]; simp only [lerpV]; ring
  · rw [hpos]; simp only [lerpV]; ring
  · rw [hpos]; simp only [lerpV]; ring
  · rw [hpos]; exact lerp_dist2_scale _ _
  · intro hd
    rw [hpos, lerp_dist2_scale]
    nlinarith
  · intro hd
    rw [instPosStep_iter_dist2 mode sv hm item 150]
    exact mul_lt_mul_of_pos_right pow150_bound hd

/-- C4, witness: a concrete instance at distance² 14 from its TREE target;
one step strictly decreases the distance. -/
theorem lerp_convergence_witness :
    AppState.tree ≠ AppState.scatter
    ∧ 0 < dist2 itemOff.currentPos (instTarget AppState.tree itemOff)
    ∧ dist2 ((updateMeshItem AppState.tree 0 0 itemOff).1.currentPos)
        (instTarget AppState.tree itemOff)
      < dist2 itemOff.currentPos (instTarget AppState.tree itemOff) := by
  have hd : 0 < dist2 itemOff.currentPos (instTarget AppState.tree itemOff) := by
    norm_num [dist2, instTarget, itemOff]
  exact ⟨by decide, hd,
    (lerp_convergence AppState.tree 0 0 itemOff (by decide)).2.2.1 hd⟩

/-! ### C10 -/

/-- The per-frame instance update never changes the base scale. -/
theorem runInst_scale (fs : List FrameCtx) (item : Inst) :
    (runInst fs item).scale = item.scale := by
  induction fs generalizing item with
  | nil => rfl
  | cons f fs ih =>
    show (runInst fs ((updateMeshItem f.mode f.time f.sinTI item).1)).scale = item.scale
    rw [ih]
    rfl

/-- C10: after any history of frames, the scale written to a decorative
instance's matrix on the current frame is a pure function of that frame's
mode — exactly `0.5 ×` the base scale when the mode is ZOOM and exactly the
base scale otherwise.  It is not blended through the smoothing filter, and
it reverts on the first frame whose mode is not ZOOM. -/
theorem zoom_scale_memoryless (fs : List FrameCtx) (m : AppState) (t sv : ℚ)
    (item : Inst) :
    (updateMeshItem m t sv (runInst fs item)).2.scale
      = if m = AppState.zoom then item.scale * (1/2) else item.scale := by
  have hs : (runInst fs item).scale = item.scale := runInst_scale fs item
  by_cases hm : m = AppState.zoom <;> simp [updateMeshItem, hm, hs]

/-! ### C6 -/

/-- `selectClosestPhoto` sends a cursor that is `−1` or a valid index to a
valid index whenever at least one photo exists. -/
theorem selectClosestPhoto_valid (count : Nat) (cursor : Int)
    (hc : cursor = -1 ∨ (0 ≤ cursor ∧ cursor < (count : Int)))
    (hcount : 0 < count) :
    0 ≤ selectClosestPhoto count cursor
    ∧ selectClosestPhoto count cursor < (count : Int) := by
  have hne : ¬ count = 0 := hcount.ne'
  have hcz : ((count : Int)) ≠ 0 := by exact_mod_cast hne
  unfold selectClosestPhoto
  rw [if_neg hne]
  rcases hc with h | ⟨h0, h1⟩
  · rw [if_pos h]
    exact ⟨le_refl 0, by exact_mod_cast hcount⟩
  · rw [if_neg (by omega), Int.tmod_eq_emod (by omega) (by positivity)]
    exact ⟨Int.emod_nonneg _ hcz, Int.emod_lt_of_pos _ (by exact_mod_cast hcount)⟩

/-- Every branch of `applyGesture` either leaves the cursor and photos alone
without entering ZOOM, leaves cursor, photos and mode alone, or performs the
qualifying cursor advance. -/
theorem applyGesture_cases (l9 : Landmark) (fist pinch : Bool) (s : Sim) :
    ((applyGesture l9 fist pinch s).cursor = s.cursor
      ∧ (applyGesture l9 fist pinch s).photos = s.photos
      ∧ (applyGesture l9 fist pinch s).mode ≠ AppState.zoom)
    ∨ ((applyGesture l9 fist pinch s).cursor = s.cursor
      ∧ (applyGesture l9 fist pinch s).photos = s.photos
      ∧ (applyGesture l9 fist pinch s).mode = s.mode)
    ∨ ((applyGesture l9 fist pinch s).photos = s.photos
      ∧ 0 < s.photos.length
      ∧ (applyGesture l9 fist pinch s).cursor
          = selectClosestPhoto s.photos.length s.cursor) := by
  cases pinch
  · cases fist
    · by_cases ho : s.mode = AppState.tree ∨ s.mode = AppState.zoom
      · refine Or.inl ⟨?_, ?_, ?_⟩ <;> simp [applyGesture, ho]
      · refine Or.inr (Or.inl ⟨?_, ?_, ?_⟩) <;> simp [applyGesture, ho]
    · refine Or.inl ⟨?_, ?_, ?_⟩ <;> simp [applyGesture]
  · by_cases hc : s.mode = AppState.scatter ∧ 0 < s.photos.length
    · refine Or.inr (Or.inr ⟨?_, hc.2, ?_⟩) <;> simp [applyGesture, hc]
    · refine Or.inr (Or.inl ⟨?_, ?_, ?_⟩) <;> simp [applyGesture, hc]

/-- `applyGesture` preserves the cursor invariant. -/
theorem cursorInv_applyGesture (l9 : Landmark) (fist pinch : Bool) (s : Sim)
    (h : CursorInv s) : CursorInv (applyGesture l9 fist pinch s) := by
  rcases applyGesture_cases l9 fist pinch s with ⟨h1, h2, h3⟩ | ⟨h1, h2, h3⟩ | ⟨h1, h2, h3⟩
  · exact ⟨by rw [h1, h2]; exact h.1, fun hz => absurd hz h3⟩
  · exact ⟨by rw [h1, h2]; exact h.1, by rw [h1, h2, h3]; exact h.2⟩
  · have hv := selectClosestPhoto_valid s.photos.length s.cursor h.1 h2
    exact ⟨Or.inr (by rw [h3, h1]; exact hv), fun _ => by rw [h3, h1]; exact hv⟩

/-- A detection-loop tick preserves the cursor invariant. -/
theorem cursorInv_processDetection (hands : List (List Landmark)) (s s' : Sim)
    (h : processDetection hands s = some s') (hinv : CursorInv s) :
    CursorInv s' := by
  cases hands with
  | nil =>
    rw [processDetection] at h
    obtain rfl := Option.some.inj h
    exact hinv
  | cons marks rest =>
    obtain ⟨l9, fist, pinch, -, -, -, hs'⟩ := handleGesture_eq_some h
    rw [hs']
    exact cursorInv_applyGesture l9 fist pinch _ hinv

/-- A photo upload preserves the cursor invariant. -/
theorem cursorInv_addPhoto (p : PhotoData) (s : Sim) (h : CursorInv s) :
    CursorInv (addPhoto p s) := by
  constructor
  · rcases h.1 with h1 | ⟨h1, h2⟩
    · exact Or.inl h1
    · refine Or.inr ⟨h1, ?_⟩
      show s.cursor < ((s.photos ++ [p]).length : Int)
      rw [List.length_append]
      push_cast
      omega
  · intro hz
    exact AppState.noConfusion hz

/-- The animation-loop rotation tick does not touch mode, cursor or photos. -/
theorem animateRotationStep_preserves (s : Sim) :
    (animateRotationStep s).mode = s.mode
    ∧ (animateRotationStep s).cursor = s.cursor
    ∧ (animateRotationStep s).photos = s.photos := by
  obtain ⟨mo, ph, pc, cu, hp, lhp, rv, rot, pres, g, si, ge, em, du, st⟩ := s
  cases mo <;> cases pres <;> simp [animateRotationStep]

/-- Every reachable state satisfies the cursor invariant. -/
theorem cursorInv_reachable {s : Sim} (h : Reachable s) : CursorInv s := by
  induction h with
  | init r => exact ⟨Or.inl rfl, fun hz => AppState.noConfusion hz⟩
  | step hr hs ih =>
    cases hs with
    | detect hands _ _ heq => exact cursorInv_processDetection _ _ _ heq ih
    | upload p _ => exact cursorInv_addPhoto _ _ ih
    | frame _ =>
      obtain ⟨h1, h2, h3⟩ := animateRotationStep_preserves _
      refine ⟨?_, fun hz => ?_⟩
      · rw [h2, h3]; exact ih.1
      · rw [h1] at hz
        rw [h2, h3]
        exact ih.2 hz

/-- C6: in every reachable state, whenever the Mode is ZOOM and the photo
sequence is non-empty, the SelectionCursor is a valid index into it; the
invariant is preserved by every gesture transition, cursor advance and
photo upload. -/
theorem zoom_cursor_invariant (s : Sim) (h : Reachable s)
    (hm : s.mode = AppState.zoom) (hp : 0 < s.photos.length) :
    0 ≤ s.cursor ∧ s.cursor < (s.photos.length : Int) :=
  (cursorInv_reachable h).2 hm

/-- C6, witness: a concrete reachable ZOOM state — initial state, one photo
upload, an open-hand frame (TREE→SCATTER), then a qualifying pinch
(SCATTER→ZOOM with cursor 0). -/
theorem zoom_cursor_invariant_witness :
    Reachable simPinch1 ∧ simPinch1.mode = AppState.zoom
    ∧ 0 < simPinch1.photos.length
    ∧ 0 ≤ simPinch1.cursor ∧ simPinch1.cursor < (simPinch1.photos.length : Int) := by
  have h1 : Reachable simUpload1 :=
    Reachable.step (Reachable.init regE) (Step.upload photoA (initSim regE))
  have hd2 : processDetection [openHand] simUpload1 = some simOpen1 := by
    norm_num [processDetection, handleGesture, classify, isPinchCheck, isFistCheck,
      isFingerFolded, openHand, ldist2, simOpen1]
  have h2 : Reachable simOpen1 := Reachable.step h1 (Step.detect [openHand] _ _ hd2)
  have hd3 : processDetection [pinchHand] simOpen1 = some simPinch1 := by
    norm_num [processDetection, handleGesture, classify, isPinchCheck, isFistCheck,
      isFingerFolded, pinchHand, ldist2, simPinch1]
  have h3 : Reachable simPinch1 := Reachable.step h2 (Step.detect [pinchHand] _ _ hd3)
  have hm : simPinch1.mode = AppState.zoom := by
    norm_num [simPinch1, simOpen1, simUpload1, applyGesture, addPhoto, initSim,
      selectClosestPhoto]
  have hp : 0 < simPinch1.photos.length := by
    norm_num [simPinch1, simOpen1, simUpload1, applyGesture, addPhoto, initSim,
      selectClosestPhoto]
  obtain ⟨hc1, hc2⟩ := zoom_cursor_invariant simPinch1 h3 hm hp
  exact ⟨h3, hm, hp, hc1, hc2⟩

/-! ### C7 -/

/-- C7: the totality claim fails on the code.  The detection branch treats
only an empty `result.landmarks` as "no hand" (second conjunct); a detected
hand whose landmark list is malformed — here a single point — reaches
`handleGesture`, whose read of `landmarks[9]` faults (the `none` outcome,
modelling the thrown `TypeError`) instead of being processed as "no hand". -/
theorem malformed_landmarks_fault :
    processDetection [[(⟨0, 0⟩ : Landmark)]] (initSim regE) = none
    ∧ processDetection [] (initSim regE)
        = some { initSim regE with handPresent := false } :=
  ⟨rfl, rfl⟩

/-! ### C8 -/

/-- C8: the skip-on-non-finite policy fails on the code.  The photo position
update `mesh.position.lerp(targetPos, 0.1)` is applied unconditionally: a
NaN target component overwrites a finite position component (first
conjunct, `x` becomes NaN rather than staying `5`), and once NaN the
component remains NaN on later frames even against finite targets (second
conjunct). -/
theorem nan_target_propagates :
    photoPosStep ⟨some 5, some 5, some 5⟩ ⟨none, some 0, some 0⟩
      = ⟨none, some (9/2), some (9/2)⟩
    ∧ photoPosStep ⟨none, some (9/2), some (9/2)⟩ ⟨some 0, some 0, some 0⟩
      = ⟨none, some (81/20), some (81/20)⟩ := by
  constructor <;>
    norm_num [photoPosStep, jLerpV, jAdd, jSub, jMul, JVec.mk.injEq]

/-! ### C9 -/

/-- C9: uploading one image, from any mode, resets the Mode to TREE,
increments the photo count and the photo sequence length by exactly one,
and leaves every existing registry entry — the four decorative categories,
the dust motes, the focal emblem, and all previously added photos with
their tree/scatter targets — unchanged. -/
theorem addPhoto_effects (p : PhotoData) (s : Sim) :
    (addPhoto p s).mode = AppState.tree
    ∧ (addPhoto p s).photoCount = s.photoCount + 1
    ∧ (addPhoto p s).photos.length = s.photos.length + 1
    ∧ (addPhoto p s).gold = s.gold
    ∧ (addPhoto p s).silver = s.silver
    ∧ (addPhoto p s).gem = s.gem
    ∧ (addPhoto p s).emerald = s.emerald
    ∧ (addPhoto p s).dust = s.dust
    ∧ (addPhoto p s).star = s.star
    ∧ (addPhoto p s).photos.take s.photos.length = s.photos := by
  refine ⟨rfl, rfl, ?_, rfl, rfl, rfl, rfl, rfl, rfl, ?_⟩
  · simp [addPhoto]
  · show (s.photos ++ [p]).take s.photos.length = s.photos
    exact List.take_left s.photos [p]

end JewelApp
